import Mathlib

/-!
Shallow embedding of `pyvista/core/validate/array_validators.py`.

Numeric values are modelled as exact rationals (the spec treats arrays as
real-valued, finite-by-default numeric data; IEEE float rounding is out of
scope, so `check_finite` never fails in this model and is noted in comments
where the source calls it).  An array-like input that has already been
parsed into a rectangular layout is a shape, an inferred dtype and a
row-major list of values; ragged inputs, which the numeric-array collaborator
rejects before any validator logic runs, are out of scope.  The dtypes that
the claims exercise are the integer and floating families, both of which are
real and numeric, so `check_real` / `check_subdtype(np.number)` (source lines
271-277) always pass and are kept as comments.  The copy/`as_any` options
only affect aliasing, never values, and are omitted.

The checker helpers (`check_shape`, `check_length`, `check_sorted`, ...)
live in `array_checkers.py`, which is not part of the visible source; each
is modelled from the spec and from the docstrings in `array_validators.py`
and is marked `Modelled from the spec:` in its doc comment.
-/

/-- Numeric dtype family of an array: integer or floating.  Both are real
numeric dtypes, the only ones the claims exercise. -/
inductive DType where
  | int
  | float
deriving DecidableEq, Repr

/-- An array-like input (or a produced ndarray): rectangular shape, dtype and
row-major data.  Scalars have shape `[]`. -/
structure NArray where
  shape : List Nat
  dtype : DType
  data : List ℚ
deriving DecidableEq, Repr

/-- The two error kinds of the validation layer: type-mismatch errors and
value errors, each carrying a message. -/
inductive VError where
  | typeErr (msg : String)
  | valueErr (msg : String)
deriving DecidableEq, Repr

/-- Python value of `isinstance(e, TypeError)` for a validator result. -/
def isTypeErrB : Except VError α → Bool
  | .error (.typeErr _) => true
  | _ => false

/-- A shape argument as the Python caller writes it: a bare int (meaning a
1-dimensional shape of that length) or a tuple of dims, `-1` meaning any
size.  The distinction matters because the wrappers compare overriding
values with Python `!=`, under which `2 != (2,)`. -/
inductive ShapeLike where
  | int (n : ℤ)
  | tup (dims : List ℤ)
deriving DecidableEq, Repr

/-- A `must_have_shape` argument: one shape or a list of allowed shapes. -/
inductive ShapeSpec where
  | one (s : ShapeLike)
  | many (ss : List ShapeLike)
deriving DecidableEq, Repr

/-- Dims denoted by a shape-like value: a bare int `n` denotes `(n,)`. -/
def ShapeLike.dims : ShapeLike → List ℤ
  | .int n => [n]
  | .tup ds => ds

/-- Modelled from the spec: a concrete shape matches a dims pattern when the
ranks agree and every dim either equals the pattern entry or the pattern
entry is `-1` ("any size"). -/
def shapeMatchesDims (shape : List Nat) (dims : List ℤ) : Bool :=
  decide (shape.length = dims.length) &&
    (List.zip shape dims).all fun p => decide (p.2 = -1) || decide (p.2 = (p.1 : ℤ))

/-- Modelled from the spec: `check_shape` accepts one shape or any of a list
of allowable shapes. -/
def shapeSpecMatches (spec : ShapeSpec) (shape : List Nat) : Bool :=
  match spec with
  | .one s => shapeMatchesDims shape s.dims
  | .many ss => ss.any fun s => shapeMatchesDims shape s.dims

/-- A `reshape_to` argument as the caller writes it: bare int or tuple.  A
bare int `-1` flattens; the source compares `arr_out.shape != reshape_to`
with Python `!=`, under which a tuple never equals an int. -/
inductive ReshapeArg where
  | int (n : ℤ)
  | tup (dims : List ℤ)
deriving DecidableEq, Repr

/-- Python truth value of `arr_out.shape == reshape_to` (source line 287): a
shape tuple equals a reshape argument only when the argument is a tuple with
exactly the same entries. -/
def shapeEqArg (shape : List Nat) : ReshapeArg → Bool
  | .int _ => false
  | .tup ds => decide (shape.map (fun n => (n : ℤ)) = ds)

/-- Semantics of `numpy.reshape`: a bare int `-1` flattens, a bare
nonnegative int requires that exact total size, and a tuple may contain at
most one `-1`, whose size is inferred when the remaining dims divide the
total.  `none` is the numpy value error for an incompatible target. -/
def npReshape (a : NArray) (r : ReshapeArg) : Option NArray :=
  let total := a.data.length
  match r with
  | .int n =>
      if n = -1 then some ⟨[total], a.dtype, a.data⟩
      else if 0 ≤ n ∧ n.toNat = total then some ⟨[n.toNat], a.dtype, a.data⟩
      else none
  | .tup ds =>
      if ds.all fun d => decide (0 ≤ d) then
        if (ds.map Int.toNat).prod = total then some ⟨ds.map Int.toNat, a.dtype, a.data⟩
        else none
      else if ds.count (-1) = 1 ∧ (ds.all fun d => d = -1 ∨ 0 ≤ d) then
        let p := ((ds.filter fun d => d ≠ -1).map Int.toNat).prod
        if 0 < p ∧ p ∣ total then
          some ⟨ds.map (fun d => if d = -1 then total / p else d.toNat), a.dtype, a.data⟩
        else none
      else none

/-- Row-major enumeration of all multi-indices of a shape. -/
def allIndices : List Nat → List (List Nat)
  | [] => [[]]
  | n :: rest => (List.range n).flatMap fun i => (allIndices rest).map (i :: ·)

/-- Row-major flat position of a multi-index. -/
def flatIndexOf (shape idx : List Nat) : Nat :=
  (List.zip shape idx).foldl (fun acc p => acc * p.1 + p.2) 0

/-- Element a broadcast view reads at a target multi-index: trailing axes are
aligned and size-1 source axes repeat their single entry. -/
def broadcastGet (a : NArray) (idx : List Nat) : ℚ :=
  let idx2 := idx.drop (idx.length - a.shape.length)
  let idx3 := (List.zip a.shape idx2).map fun p => if p.1 = 1 then 0 else p.2
  a.data.getD (flatIndexOf a.shape idx3) 0

/-- Semantics of `numpy.broadcast_to`: the source rank may not exceed the
target rank and every trailing-aligned source dim must equal the target dim
or be 1.  `none` is the numpy value error for incompatible shapes. -/
def npBroadcastTo (a : NArray) (t : List Nat) : Option NArray :=
  if a.shape.length ≤ t.length ∧
      ((List.zip a.shape (t.drop (t.length - a.shape.length))).all fun p =>
        decide (p.1 = p.2) || decide (p.1 = 1)) then
    some ⟨t, a.dtype, (allIndices t).map (broadcastGet a)⟩
  else none

/-- A `must_have_length` argument: one required length or a list of
acceptable lengths. -/
inductive LenSpec where
  | one (n : Nat)
  | many (ns : List Nat)
deriving DecidableEq, Repr

/-- Modelled from the spec: the length `check_length` sees for the object it
is given is the Python `len` of that object, i.e. its leading dimension;
with `allow_scalar=True` a scalar counts as length-compatible (length 1). -/
def pyLen (a : NArray) : Nat :=
  a.shape.headD 1

/-- Modelled from the spec: `check_length` verifies an exact length (or
membership in a list of lengths), a minimum and a maximum, each optional. -/
def checkLengthOk (len : Nat) (exact : Option LenSpec) (minL maxL : Option Nat) : Bool :=
  (match exact with
   | none => true
   | some (.one n) => decide (len = n)
   | some (.many ns) => ns.contains len) &&
  (match minL with | none => true | some m => decide (m ≤ len)) &&
  (match maxL with | none => true | some m => decide (len ≤ m))

/-- Modelled from the spec: `check_sorted` with default parameters requires
ascending, non-strict order along the last axis; rows of the last axis are
the contiguous blocks of the row-major data. -/
def checkSortedLastAxis (a : NArray) : Bool :=
  let d := a.shape.getLastD 1
  if d = 0 then true
  else (List.range (a.data.length - 1)).all fun i =>
    decide ((i + 1) % d = 0) || decide (a.data.getD i 0 ≤ a.data.getD (i + 1) 0)

/-- Truncation toward zero, the semantics of a numpy cast from a float value
to an integer dtype. -/
def truncQ (x : ℚ) : ℤ :=
  if 0 ≤ x then ⌊x⌋ else ⌈x⌉

/-- Semantics of `ndarray.astype`: a cast to an integer dtype truncates each
value toward zero; a cast to a floating dtype keeps the values. -/
def astype (a : NArray) (dt : DType) : NArray :=
  match dt with
  | .int => ⟨a.shape, .int, a.data.map fun x => ((truncQ x : ℤ) : ℚ)⟩
  | .float => ⟨a.shape, .float, a.data⟩

/-- Python objects a validator can return: a plain number (int or float), a
nested list, a nested tuple, or an ndarray. -/
inductive PyObj where
  | num (dt : DType) (x : ℚ)
  | list (xs : List PyObj)
  | tuple (xs : List PyObj)
  | array (a : NArray)

/-- Contiguous slice of the row-major data. -/
def sliceQ (data : List ℚ) (start len : Nat) : List ℚ :=
  (data.drop start).take len

/-- Nested container of a given kind built from a shape and row-major data;
a 0-d array unwraps to a plain number. -/
def nestedOf (mk : List PyObj → PyObj) (dt : DType) : List Nat → List ℚ → PyObj
  | [], d => .num dt (d.headD 0)
  | n :: rest, d =>
      mk ((List.range n).map fun i => nestedOf mk dt rest (sliceQ d (i * rest.prod) rest.prod))

/-- Modelled from the spec: `cast_to_tuple_array` (from `utilities/arrays.py`,
not in src) returns the array as a tuple or nested tuple, scalars unwrapped
to plain numbers. -/
def cast_to_tuple_array (a : NArray) : PyObj :=
  nestedOf PyObj.tuple a.dtype a.shape a.data

/-- Semantics of `ndarray.tolist`: a list or nested list, scalars unwrapped
to plain numbers. -/
def arrayToPyList (a : NArray) : PyObj :=
  nestedOf PyObj.list a.dtype a.shape a.data

/-- The keyword-argument bag of `validate_array`.  `none` means the caller
did not pass the keyword, which the wrappers distinguish from an explicit
value via `setdefault` and `_set_default_kwarg_mandatory`. -/
structure Kwargs where
  must_have_shape : Option ShapeSpec := none
  must_have_dtype : Option DType := none
  must_have_length : Option LenSpec := none
  must_have_min_length : Option Nat := none
  must_have_max_length : Option Nat := none
  must_be_nonnegative : Option Bool := none
  must_be_finite : Option Bool := none
  must_be_real : Option Bool := none
  must_be_integer_like : Option Bool := none
  must_be_sorted : Option Bool := none
  must_be_in_range : Option (ℚ × ℚ) := none
  strict_lower_bound : Option Bool := none
  strict_upper_bound : Option Bool := none
  reshape_to : Option ReshapeArg := none
  broadcast_to : Option (List Nat) := none
  dtype_out : Option DType := none
  to_list : Option Bool := none
  to_tuple : Option Bool := none
  name : Option String := none

/-- Modelled from the spec: `check_subdtype` membership for the dtype
families this model carries; integer matches the integer family, floating
the floating family. -/
def dtypeIsSub (d target : DType) : Bool :=
  decide (d = target)

/-- Whether the `must_have_dtype` check (source line 279) fails. -/
def dtypeFails (d : DType) (req : Option DType) : Bool :=
  match req with
  | none => false
  | some t => !dtypeIsSub d t

/-- Whether the `must_have_shape` check (source line 283) fails. -/
def shapeFails (shape : List Nat) (req : Option ShapeSpec) : Bool :=
  match req with
  | none => false
  | some spec => !shapeSpecMatches spec shape

/-- Reshape stage of `validate_array` (source lines 286-288): applied only
when `reshape_to` is given and differs from the current shape. -/
def reshapeStep (arr : NArray) (rt : Option ReshapeArg) (name : String) : Except VError NArray :=
  match rt with
  | none => .ok arr
  | some r =>
      if shapeEqArg arr.shape r then .ok arr
      else match npReshape arr r with
        | some a => .ok a
        | none => .error (.valueErr (name ++ " cannot be reshaped."))

/-- Broadcast stage of `validate_array` (source lines 290-291). -/
def broadcastStep (arr : NArray) (bt : Option (List Nat)) (name : String) : Except VError NArray :=
  match bt with
  | none => .ok arr
  | some t =>
      if arr.shape = t then .ok arr
      else match npBroadcastTo arr t with
        | some a => .ok a
        | none => .error (.valueErr (name ++ " cannot be broadcast."))

/-- Whether one value lies in the requested range under the strictness
flags. -/
def boundOkB (lo hi : ℚ) (sl su : Bool) (x : ℚ) : Bool :=
  (if sl then decide (lo < x) else decide (lo ≤ x)) &&
  (if su then decide (x < hi) else decide (x ≤ hi))

/-- Whether the `must_be_in_range` check fails. -/
def rangeFails (arr2 : NArray) (k : Kwargs) : Bool :=
  match k.must_be_in_range with
  | none => false
  | some p =>
      !(arr2.data.all fun x =>
        boundOkB p.1 p.2 (k.strict_lower_bound.getD false) (k.strict_upper_bound.getD false) x)

/-- Value-check stage of `validate_array` (source lines 293-327), returning
the first failing check if any.  NOTE: the source passes the ORIGINAL
positional argument `arr` to `check_length` on line 300 (not the reshaped and
broadcast `arr_out`), which this definition reproduces via `orig`; the value
checks proper run on the processed array `arr2`.  `must_be_finite` (lines
311-312) never fails on rational values and is not represented. -/
def valueChecks (orig arr2 : NArray) (k : Kwargs) (name : String) : Option VError :=
  if (k.must_have_length.isSome || k.must_have_min_length.isSome
        || k.must_have_max_length.isSome)
      && !(checkLengthOk (pyLen orig) k.must_have_length
            k.must_have_min_length k.must_have_max_length) then
    some (.valueErr (name ++ " has an invalid length."))
  else if k.must_be_nonnegative.getD false
      && !(arr2.data.all fun x => decide (0 ≤ x)) then
    some (.valueErr (name ++ " must be nonnegative."))
  else if k.must_be_integer_like.getD false
      && !(arr2.data.all fun x => decide (x = ((⌊x⌋ : ℤ) : ℚ))) then
    some (.valueErr (name ++ " must have integer-like values."))
  else if rangeFails arr2 k then
    some (.valueErr (name ++ " is not in range."))
  else if k.must_be_sorted.getD false && !(checkSortedLastAxis arr2) then
    some (.valueErr (name ++ " must be sorted."))
  else none

/-- Core of `validate_array` (source lines 268-333): type and dtype checks,
shape check, reshape, broadcast, length and value checks, and the final
dtype cast; everything except the container conversion of lines 334-338. -/
def validate_array_core (arr : NArray) (k : Kwargs) : Except VError NArray :=
  let name := k.name.getD "Array"
  -- source lines 271-277: check_real / check_subdtype(np.number); the int
  -- and float dtype families are real and numeric, so this never fails here
  if dtypeFails arr.dtype k.must_have_dtype then
    .error (.typeErr (name ++ " has the wrong dtype."))
  else if shapeFails arr.shape k.must_have_shape then
    .error (.valueErr (name ++ " has an invalid shape."))
  else match reshapeStep arr k.reshape_to name with
    | .error e => .error e
    | .ok a1 =>
      match broadcastStep a1 k.broadcast_to name with
      | .error e => .error e
      | .ok a2 =>
        match valueChecks arr a2 k name with
        | some e => .error e
        | none => .ok (match k.dtype_out with
            | some dt => astype a2 dt
            | none => a2)

/-- Translation of `validate_array` (source lines 39-338): the core pipeline
followed by the output container conversion, the tuple branch checked before
the list branch (source lines 334-338). -/
def validate_array (arr : NArray) (k : Kwargs) : Except VError PyObj :=
  match validate_array_core arr k with
  | .error e => .error e
  | .ok a =>
      if k.to_tuple.getD false then .ok (cast_to_tuple_array a)
      else if k.to_list.getD false then .ok (arrayToPyList a)
      else .ok (.array a)

/-- Message of `_set_default_kwarg_mandatory` (source lines 1008-1011),
naming the offending parameter and the calling wrapper. -/
def overrideMsg (key fname : String) : String :=
  "Parameter " ++ key ++ " cannot be set for function " ++ fname ++
    ". Its value is automatically set to its default."

/-- Translation of `_set_default_kwarg_mandatory` (source lines 1003-1013):
pop the keyword, and raise a ValueError naming the parameter and the calling
wrapper if the caller set it to anything but the mandatory default.  The
caller-stack introspection of the source is replaced by the explicit
`fname` argument, as the spec itself prescribes for a rewrite. -/
def setDefaultMandatory {α : Type} [DecidableEq α] (fname key : String)
    (given : Option α) (default : α) : Except VError α :=
  match given with
  | none => .ok default
  | some v =>
      if v = default then .ok default
      else .error (.valueErr (overrideMsg key fname))

/-- Translation of `validate_number` (source lines 569-634). -/
def validate_number (num : NArray) (reshape : Bool) (k : Kwargs) : Except VError PyObj :=
  let k := { k with name := some (k.name.getD "Number"),
                    to_list := some (k.to_list.getD true),
                    must_be_finite := some (k.must_be_finite.getD true),
                    must_be_real := some (k.must_be_real.getD true) }
  if reshape then
    match setDefaultMandatory "validate_number" "reshape_to" k.reshape_to (.tup []) with
    | .error e => .error e
    | .ok rt =>
      match setDefaultMandatory "validate_number" "must_have_shape" k.must_have_shape
          (.many [.tup [], .tup [1]]) with
      | .error e => .error e
      | .ok sh => validate_array num { k with reshape_to := some rt, must_have_shape := some sh }
  else
    match setDefaultMandatory "validate_number" "must_have_shape" k.must_have_shape
        (.one (.tup [])) with
    | .error e => .error e
    | .ok sh => validate_array num { k with must_have_shape := some sh }

/-- Translation of `validate_data_range` (source lines 637-683). -/
def validate_data_range (rng : NArray) (k : Kwargs) : Except VError PyObj :=
  let k := { k with name := some (k.name.getD "Data Range") }
  match setDefaultMandatory "validate_data_range" "must_have_shape" k.must_have_shape
      (.one (.int 2)) with
  | .error e => .error e
  | .ok sh =>
    match setDefaultMandatory "validate_data_range" "must_be_sorted" k.must_be_sorted true with
    | .error e => .error e
    | .ok so =>
      let k := { k with must_have_shape := some sh, must_be_sorted := some so }
      let k := if k.to_list.isSome then k
        else { k with to_tuple := some (k.to_tuple.getD true) }
      validate_array rng k

/-- Translation of `validate_arrayNx3` (source lines 686-755). -/
def validate_arrayNx3 (arr : NArray) (reshape : Bool) (k : Kwargs) : Except VError PyObj :=
  if reshape then
    match setDefaultMandatory "validate_arrayNx3" "reshape_to" k.reshape_to (.tup [-1, 3]) with
    | .error e => .error e
    | .ok rt =>
      match setDefaultMandatory "validate_arrayNx3" "must_have_shape" k.must_have_shape
          (.many [.int 3, .tup [-1, 3]]) with
      | .error e => .error e
      | .ok sh => validate_array arr { k with reshape_to := some rt, must_have_shape := some sh }
  else
    match setDefaultMandatory "validate_arrayNx3" "must_have_shape" k.must_have_shape
        (.one (.tup [-1, 3])) with
    | .error e => .error e
    | .ok sh => validate_array arr { k with must_have_shape := some sh }

/-- Translation of `validate_arrayN` (source lines 758-829). -/
def validate_arrayN (arr : NArray) (reshape : Bool) (k : Kwargs) : Except VError PyObj :=
  if reshape then
    match setDefaultMandatory "validate_arrayN" "reshape_to" k.reshape_to (.int (-1)) with
    | .error e => .error e
    | .ok rt =>
      match setDefaultMandatory "validate_arrayN" "must_have_shape" k.must_have_shape
          (.many [.tup [], .int (-1), .tup [1, -1]]) with
      | .error e => .error e
      | .ok sh => validate_array arr { k with reshape_to := some rt, must_have_shape := some sh }
  else
    match setDefaultMandatory "validate_arrayN" "must_have_shape" k.must_have_shape
        (.one (.int (-1))) with
    | .error e => .error e
    | .ok sh => validate_array arr { k with must_have_shape := some sh }

/-- Translation of `validate_arrayN_uintlike` (source lines 832-916): pins an
integral output dtype (line 909-911), integer-likeness and nonnegativity,
then defers to `validate_arrayN`. -/
def validate_arrayN_uintlike (arr : NArray) (reshape : Bool) (k : Kwargs) :
    Except VError PyObj :=
  let dt := k.dtype_out.getD .int
  -- check_subdtype(kwargs[dtype_out], np.integer): the only non-integer
  -- dtype family in this model is floating, which is not integral
  if dt ≠ .int then .error (.typeErr "dtype_out must be a subtype of integer.")
  else
    let k := { k with dtype_out := some dt }
    match setDefaultMandatory "validate_arrayN_uintlike" "must_be_integer_like"
        k.must_be_integer_like true with
    | .error e => .error e
    | .ok il =>
      match setDefaultMandatory "validate_arrayN_uintlike" "must_be_nonnegative"
          k.must_be_nonnegative true with
      | .error e => .error e
      | .ok nn =>
          validate_arrayN arr reshape { k with must_be_integer_like := some il,
                                               must_be_nonnegative := some nn }

/-- Second stage of `validate_array3`: the broadcast-shape extension and the
final mandatory `must_have_shape`, shared by its reshape branches. -/
def validate_array3_tail (arr : NArray) (broadcast : Bool) (shapes : List ShapeLike)
    (k : Kwargs) : Except VError PyObj :=
  let step : Except VError (List ShapeLike × Kwargs) :=
    if broadcast then
      match setDefaultMandatory "validate_array3" "broadcast_to" k.broadcast_to
          ([3] : List Nat) with
      | .error e => .error e
      | .ok bt => .ok (shapes ++ [ShapeLike.tup [], ShapeLike.tup [1]],
            { k with broadcast_to := some bt })
    else .ok (shapes, k)
  match step with
  | .error e => .error e
  | .ok p =>
    match setDefaultMandatory "validate_array3" "must_have_shape" p.2.must_have_shape
        (.many p.1) with
    | .error e => .error e
    | .ok sh => validate_array arr { p.2 with must_have_shape := some sh }

/-- Translation of `validate_array3` (source lines 919-1000). -/
def validate_array3 (arr : NArray) (reshape broadcast : Bool) (k : Kwargs) :
    Except VError PyObj :=
  let shapes := [ShapeLike.tup [3]]
  if reshape then
    match setDefaultMandatory "validate_array3" "reshape_to" k.reshape_to (.int (-1)) with
    | .error e => .error e
    | .ok rt =>
        validate_array3_tail arr broadcast
          (shapes ++ [ShapeLike.tup [1, 3], ShapeLike.tup [3, 1]])
          { k with reshape_to := some rt }
  else validate_array3_tail arr broadcast shapes k

/-- The TypeError message of `validate_transform4x4` (source lines 517-524),
enumerating the accepted forms. -/
def transformTypeMsg : String :=
  "Input transform must be one of: vtkMatrix4x4, vtkMatrix3x3, vtkTransform, 4x4 ndarray, 3x3 ndarray."

/-- Result of `validate_array` viewed as an ndarray; with no container
conversion requested the result always is one, so the fallback is never
reached on the paths the source exercises. -/
def asNDArray : PyObj → NArray
  | .array a => a
  | _ => ⟨[], .float, []⟩

/-- The `np.eye(4)` identity with the upper-left 3x3 block overwritten by
the data of a (3,3) array (source lines 500, 513). -/
def embed3in4 (a : NArray) : NArray :=
  ⟨[4, 4], .float,
    (List.range 4).flatMap fun r => (List.range 4).map fun c =>
      if r < 3 ∧ c < 3 then a.data.getD (r * 3 + c) 0
      else if r = c then 1 else 0⟩

/-- Translation of `validate_transform4x4` (source lines 472-526) for
array-like input.  The three native vtk matrix/transform branches (lines
501-506) are recognized by an isinstance check that an array-like input can
never satisfy, so they are unreachable here and omitted. -/
def validate_transform4x4 (t : NArray) (name : String) : Except VError NArray :=
  match validate_array t { must_have_shape := some (.many [.tup [3, 3], .tup [4, 4]]),
                           must_be_finite := some true, name := some name } with
  | .ok o =>
      let a := asNDArray o
      if a.shape = [3, 3] then .ok (embed3in4 a) else .ok a
  | .error (.valueErr _) => .error (.typeErr transformTypeMsg)
  | .error e => .error e

/-!
Geometry layer for `validate_axes` (source lines 341-469).  The assembled
axes and all geometric checks use exact real arithmetic; `np.isclose` and
`np.allclose` keep their default tolerances `atol = 1e-8`, `rtol = 1e-5`,
and `np.linalg.norm` is the Euclidean norm, which needs `Real.sqrt` and
makes this layer noncomputable.
-/

/-- The numpy default absolute tolerance of `isclose`. -/
noncomputable def atol : ℝ := 1 / 100000000

/-- The numpy default relative tolerance of `isclose`. -/
noncomputable def rtol : ℝ := 1 / 100000

/-- Semantics of `np.isclose(a, b)` with default tolerances. -/
def isclose (a b : ℝ) : Prop :=
  |a - b| ≤ atol + rtol * |b|

/-- A 3-vector of reals, one row of an axes frame. -/
structure Vec3 where
  x : ℝ
  y : ℝ
  z : ℝ

/-- A 3x3 frame of row vectors. -/
structure Mat3 where
  r0 : Vec3
  r1 : Vec3
  r2 : Vec3

/-- Dot product of two 3-vectors. -/
noncomputable def dot3 (u v : Vec3) : ℝ :=
  u.x * v.x + u.y * v.y + u.z * v.z

/-- Cross product of two 3-vectors. -/
noncomputable def cross3 (u v : Vec3) : Vec3 :=
  ⟨u.y * v.z - u.z * v.y, u.z * v.x - u.x * v.z, u.x * v.y - u.y * v.x⟩

/-- Negation of a 3-vector. -/
noncomputable def negV (v : Vec3) : Vec3 :=
  ⟨-v.x, -v.y, -v.z⟩

/-- The zero 3-vector. -/
def zero3 : Vec3 :=
  ⟨0, 0, 0⟩

/-- Semantics of `np.allclose` on 3-vectors: componentwise `isclose`. -/
def allclose3 (a b : Vec3) : Prop :=
  isclose a.x b.x ∧ isclose a.y b.y ∧ isclose a.z b.z

/-- A row is close to zeros componentwise, the test of source line 445. -/
def allcloseZero (v : Vec3) : Prop :=
  |v.x| ≤ atol ∧ |v.y| ≤ atol ∧ |v.z| ≤ atol

/-- Euclidean row norm, `np.linalg.norm` of one row. -/
noncomputable def norm3 (v : Vec3) : ℝ :=
  Real.sqrt (dot3 v v)

/-- One row of `axes_array / norm.reshape((3, 1))` (source line 450). -/
noncomputable def normRow (v : Vec3) : Vec3 :=
  ⟨v.x / norm3 v, v.y / norm3 v, v.z / norm3 v⟩

/-- The row-normalized frame of source line 450. -/
noncomputable def normMat (M : Mat3) : Mat3 :=
  ⟨normRow M.r0, normRow M.r1, normRow M.r2⟩

/-- The anti/parallel test of source lines 441-443: the dot of row 0 with
row 1 or with row 2 is close to 1. -/
def parallelCond (M : Mat3) : Prop :=
  isclose (dot3 M.r0 M.r1) 1 ∨ isclose (dot3 M.r0 M.r2) 1

/-- The zero-row test of source lines 445-446. -/
def zeroCond (M : Mat3) : Prop :=
  allcloseZero M.r0 ∨ allcloseZero M.r1 ∨ allcloseZero M.r2

/-- The orthogonality test of source lines 454-457, on the normalized
frame: the cross of rows 0 and 1 aligns up to sign with row 2, and the
cross of rows 1 and 2 aligns up to sign with row 0. -/
def orthoCond (N : Mat3) : Prop :=
  (allclose3 (cross3 N.r0 N.r1) N.r2 ∨ allclose3 (cross3 N.r0 N.r1) (negV N.r2)) ∧
  (allclose3 (cross3 N.r1 N.r2) N.r0 ∨ allclose3 (cross3 N.r1 N.r2) (negV N.r0))

/-- The orientation test of source lines 460-465 on the normalized frame:
right-handed requires a nonnegative triple product, left-handed a
nonpositive one. -/
def orientFails (orient : Option String) (N : Mat3) : Prop :=
  match orient with
  | some s =>
      (s = "right" ∧ dot3 (cross3 N.r0 N.r1) N.r2 < 0) ∨
      (s = "left" ∧ 0 < dot3 (cross3 N.r0 N.r1) N.r2)
  | none => False

open scoped Classical in
/-- The post-assembly part of `validate_axes` (source lines 439-469):
parallel check, zero check, orthogonality check, orientation check, and the
choice between the normalized and raw frame.  `check_finite` on line 439
never fails on the exact real values of this model. -/
noncomputable def axesChecks (M : Mat3) (normalize must_be_orthogonal : Bool)
    (orient : Option String) (name : String) : Except VError Mat3 :=
  if parallelCond M then .error (.valueErr (name ++ " cannot be parallel."))
  else if zeroCond M then .error (.valueErr (name ++ " cannot be zeros."))
  else if must_be_orthogonal = true ∧ ¬ orthoCond (normMat M) then
    .error (.valueErr (name ++ " are not orthogonal."))
  else if orientFails orient (normMat M) then
    .error (.valueErr (name ++ " do not have the required orientation."))
  else .ok (if normalize then normMat M else M)

/-- Real 3-vector read off a validated 3-element array. -/
noncomputable def vecOfArr (a : NArray) (r : Nat) : Vec3 :=
  ⟨((a.data.getD (3 * r) 0 : ℚ) : ℝ), ((a.data.getD (3 * r + 1) 0 : ℚ) : ℝ),
    ((a.data.getD (3 * r + 2) 0 : ℚ) : ℝ)⟩

/-- Placeholder array for list access that the length check has already made
impossible to reach out of bounds. -/
def emptyArr : NArray :=
  ⟨[], .float, []⟩

/-- Frame-assembly part of `validate_axes` (source lines 420-438): one
argument must be a (3,3) array cast to floating; with two or three
arguments each vector is validated by `validate_array3`, the third being the
cross product of the first two ordered by the requested handedness when only
two are given (right: first cross second, else second cross first). -/
noncomputable def validate_axes_build (axes : List NArray)
    (normalize must_be_orthogonal : Bool) (orient : Option String) (name : String) :
    Except VError Mat3 :=
  if axes.length = 1 then
    match validate_array (axes.getD 0 emptyArr)
        { must_have_shape := some (.one (.tup [3, 3])), dtype_out := some .float,
          name := some name } with
    | .error e => .error e
    | .ok o =>
        let a := asNDArray o
        axesChecks ⟨vecOfArr a 0, vecOfArr a 1, vecOfArr a 2⟩
          normalize must_be_orthogonal orient name
  else
    match validate_array3 (axes.getD 0 emptyArr) true false
        { name := some (name ++ " Vector[0]") } with
    | .error e => .error e
    | .ok o0 =>
      match validate_array3 (axes.getD 1 emptyArr) true false
          { name := some (name ++ " Vector[1]") } with
      | .error e => .error e
      | .ok o1 =>
        let v0 := vecOfArr (asNDArray o0) 0
        let v1 := vecOfArr (asNDArray o1) 0
        if axes.length = 3 then
          match validate_array3 (axes.getD 2 emptyArr) true false
              { name := some (name ++ " Vector[2]") } with
          | .error e => .error e
          | .ok o2 =>
              axesChecks ⟨v0, v1, vecOfArr (asNDArray o2) 0⟩
                normalize must_be_orthogonal orient name
        else
          axesChecks ⟨v0, v1,
              if orient = some "right" then cross3 v0 v1 else cross3 v1 v0⟩
            normalize must_be_orthogonal orient name

/-- Translation of `validate_axes` (source lines 341-469): argument-count
check (lines 413-414), orientation-keyword checks (lines 415-418), then
frame assembly and the geometric checks. -/
noncomputable def validate_axes (axes : List NArray) (normalize must_be_orthogonal : Bool)
    (must_have_orientation : Option String) (name : String) : Except VError Mat3 :=
  if ¬ (axes.length = 1 ∨ axes.length = 2 ∨ axes.length = 3) then
    .error (.valueErr (name ++ " arguments has an invalid length."))
  else match must_have_orientation with
    | some s =>
        if ¬ (s = "right" ∨ s = "left") then
          .error (.valueErr (name ++ " orientation is not valid."))
        else
          validate_axes_build axes normalize must_be_orthogonal (some s) name
    | none =>
        if axes.length = 2 then
          .error (.valueErr
            (name ++ " orientation must be specified when only two vectors are given."))
        else
          validate_axes_build axes normalize must_be_orthogonal none name

/-- A rational 3-vector supplied to `validate_axes` as a float array-like of
shape `(3,)`. -/
def arrOf (t : ℚ × ℚ × ℚ) : NArray :=
  ⟨[3], .float, [t.1, t.2.1, t.2.2]⟩

/-- The real 3-vector a rational triple denotes once the numeric library has
converted it. -/
noncomputable def vOf (t : ℚ × ℚ × ℚ) : Vec3 :=
  ⟨((t.1 : ℚ) : ℝ), ((t.2.1 : ℚ) : ℝ), ((t.2.2 : ℚ) : ℝ)⟩

/-!
Helper lemmas shared by the claim theorems.
-/

/-- A shape matching the rigid dims pattern `[3, 3]` is `[3, 3]`. -/
theorem matchesDims33 (s : List Nat) (h : shapeMatchesDims s [3, 3] = true) : s = [3, 3] := by
  match s with
  | [] => simp [shapeMatchesDims] at h
  | [a] => simp [shapeMatchesDims] at h
  | [a, b] =>
      simp only [shapeMatchesDims, List.zip, List.zipWith, List.all, List.length,
                 Bool.and_eq_true, Bool.or_eq_true, decide_eq_true_eq] at h
      simp only [List.cons.injEq, and_true]
      omega
  | a :: b :: c :: t =>
      simp only [shapeMatchesDims, List.length, Bool.and_eq_true, decide_eq_true_eq] at h
      omega

/-- A shape matching the rigid dims pattern `[4, 4]` is `[4, 4]`. -/
theorem matchesDims44 (s : List Nat) (h : shapeMatchesDims s [4, 4] = true) : s = [4, 4] := by
  match s with
  | [] => simp [shapeMatchesDims] at h
  | [a] => simp [shapeMatchesDims] at h
  | [a, b] =>
      simp only [shapeMatchesDims, List.zip, List.zipWith, List.all, List.length,
                 Bool.and_eq_true, Bool.or_eq_true, decide_eq_true_eq] at h
      simp only [List.cons.injEq, and_true]
      omega
  | a :: b :: c :: t =>
      simp only [shapeMatchesDims, List.length, Bool.and_eq_true, decide_eq_true_eq] at h
      omega

/-!
C1: the shape check runs on the original shape, before any reshape.
-/

/-- C1: `validate_array` performs the `must_have_shape` check on the input's
original shape before any reshape is applied: whenever the original shape
matches none of the allowed shapes (and the dtype check, which precedes it,
passes), the call raises a value error, whatever `reshape_to` was requested,
even if reshaping would have produced an allowed shape. -/
theorem C1_shape_check_precedes_reshape (arr : NArray) (k : Kwargs) (spec : ShapeSpec)
    (hspec : k.must_have_shape = some spec)
    (hdt : dtypeFails arr.dtype k.must_have_dtype = false)
    (hfail : shapeSpecMatches spec arr.shape = false) :
    validate_array arr k
      = .error (.valueErr ((k.name.getD "Array") ++ " has an invalid shape.")) := by
  unfold validate_array validate_array_core
  rw [hdt, hspec]
  simp [shapeFails, hfail]

/-- Witness for C1: the original shape `(2,)` is not the allowed `(1, 2)`,
so the call fails even though the requested reshape target `(1, 2)` would
have made it allowed. -/
theorem C1_witness :
    validate_array ⟨[2], .int, [1, 2]⟩
        { must_have_shape := some (.one (.tup [1, 2])), reshape_to := some (.tup [1, 2]) }
      = .error (.valueErr "Array has an invalid shape.") :=
  C1_shape_check_precedes_reshape _ _ _ rfl rfl (by decide)

/-!
C2: the source claims (docstring of `must_have_length` and the comment on
line 293) that the length check sees the array after reshaping, but line 300
passes the original argument `arr` to `check_length` instead of `arr_out`.
-/

/-- C2: a `(1, 3)` input with `reshape_to=(3,)` and `must_have_length=3` is
rejected, because the source passes the original input (length 1) to
`check_length` (line 300); by the sources own docstring note and line-293
comment the length after reshaping (which is 3, second conjunct) should have
been checked and the call should have succeeded. -/
theorem C2_length_checked_on_original_input :
    validate_array ⟨[1, 3], .int, [1, 2, 3]⟩
        { reshape_to := some (.tup [3]), must_have_length := some (.one 3) }
      = .error (.valueErr "Array has an invalid length.")
    ∧ (npReshape ⟨[1, 3], .int, [1, 2, 3]⟩ (.tup [3])).map pyLen = some 3 := by
  constructor <;> rfl

/-!
C3: `validate_arrayN_uintlike` on non-negative integer-valued input.
-/

/-- C3: for every input whose shape the wrapper accepts (1-D, scalar, or
`(1, N)`) and whose elements are non-negative and integer-valued,
`validate_arrayN_uintlike` returns a 1-D integer-dtype array whose elements
are the floors of the corresponding input elements. -/
theorem C3_uintlike_returns_floor (arr : NArray)
    (hsh : shapeSpecMatches (.many [.tup [], .int (-1), .tup [1, -1]]) arr.shape = true)
    (hval : ∀ x ∈ arr.data, 0 ≤ x ∧ x = ((⌊x⌋ : ℤ) : ℚ)) :
    validate_arrayN_uintlike arr true {}
      = .ok (.array ⟨[arr.data.length], .int, arr.data.map fun x => ((⌊x⌋ : ℤ) : ℚ)⟩) := by
  have hall1 : (arr.data.all fun x => decide (0 ≤ x)) = true :=
    List.all_eq_true.mpr fun x hx => decide_eq_true (hval x hx).1
  have hall2 : (arr.data.all fun x => decide (x = ((⌊x⌋ : ℤ) : ℚ))) = true :=
    List.all_eq_true.mpr fun x hx => decide_eq_true (hval x hx).2
  have hmap : (arr.data.map fun x => ((truncQ x : ℤ) : ℚ))
      = arr.data.map fun x => ((⌊x⌋ : ℤ) : ℚ) :=
    List.map_congr_left fun x hx => by rw [truncQ, if_pos (hval x hx).1]
  unfold validate_arrayN_uintlike validate_arrayN validate_array validate_array_core
  simp [setDefaultMandatory, dtypeFails, shapeFails, hsh, reshapeStep, shapeEqArg,
        npReshape, broadcastStep, valueChecks, hall1, hall2, rangeFails, astype, hmap]

/-- Witness for C3 at the integer-valued float input `[0, 2, 5]`. -/
theorem C3_witness :
    validate_arrayN_uintlike ⟨[3], .float, [0, 2, 5]⟩ true {}
      = .ok (.array ⟨[3], .int, ([0, 2, 5] : List ℚ).map fun x => ((⌊x⌋ : ℤ) : ℚ)⟩) :=
  C3_uintlike_returns_floor _ (by decide) (by decide)

/-!
C4: `validate_data_range` on a two-element range.
-/

/-- C4: with default options, `validate_data_range [a, b]` returns the tuple
`(a, b)` when `a ≤ b` and raises a value error (the ascending-sortedness
check) when `a > b`. -/
theorem C4_data_range (a b : ℚ) :
    (a ≤ b → validate_data_range ⟨[2], .float, [a, b]⟩ {}
        = .ok (.tuple [.num .float a, .num .float b]))
    ∧ (b < a → validate_data_range ⟨[2], .float, [a, b]⟩ {}
        = .error (.valueErr "Data Range must be sorted.")) := by
  constructor
  · intro h
    have hd : decide (a ≤ b) = true := decide_eq_true h
    unfold validate_data_range validate_array validate_array_core
    simp [setDefaultMandatory, dtypeFails, shapeFails, shapeSpecMatches, shapeMatchesDims,
          ShapeLike.dims, reshapeStep, broadcastStep, valueChecks, rangeFails,
          checkSortedLastAxis, hd, cast_to_tuple_array, nestedOf, sliceQ, List.range_succ,
          List.take, List.head?]
  · intro h
    have hd : decide (a ≤ b) = false := decide_eq_false (not_le.mpr h)
    unfold validate_data_range validate_array validate_array_core
    simp [setDefaultMandatory, dtypeFails, shapeFails, shapeSpecMatches, shapeMatchesDims,
          ShapeLike.dims, reshapeStep, broadcastStep, valueChecks, rangeFails,
          checkSortedLastAxis, hd, List.range_succ]

/-- Witness for C4 at the sorted range `[1, 2]` and the unsorted `[3, 2]`. -/
theorem C4_witness :
    validate_data_range ⟨[2], .float, [1, 2]⟩ {}
      = .ok (.tuple [.num .float 1, .num .float 2])
    ∧ validate_data_range ⟨[2], .float, [3, 2]⟩ {}
      = .error (.valueErr "Data Range must be sorted.") :=
  ⟨(C4_data_range 1 2).1 (by norm_num), (C4_data_range 3 2).2 (by norm_num)⟩

/-!
C7: `validate_transform4x4` on plain arrays.
-/

/-- C7: a (3,3) array (finite by the value model) is embedded into the 4x4
identity with its upper-left 3x3 block overwritten by the input, entry by
entry; an array whose shape is neither (3,3) nor (4,4) raises a type error
enumerating the accepted forms. -/
theorem C7_transform4x4_embed_or_type_error :
    (∀ arr : NArray, arr.shape = [3, 3] →
        validate_transform4x4 arr "Transform" = .ok (embed3in4 arr)
        ∧ ∀ i j : Nat, i < 4 → j < 4 →
            (embed3in4 arr).data.getD (4 * i + j) 0
              = if i < 3 ∧ j < 3 then arr.data.getD (3 * i + j) 0
                else if i = j then 1 else 0)
    ∧ (∀ arr : NArray, arr.shape ≠ [3, 3] → arr.shape ≠ [4, 4] →
        validate_transform4x4 arr "Transform" = .error (.typeErr transformTypeMsg)) := by
  constructor
  · intro arr h
    constructor
    · unfold validate_transform4x4 validate_array validate_array_core
      simp [dtypeFails, shapeFails, shapeSpecMatches, shapeMatchesDims, ShapeLike.dims, h,
            reshapeStep, broadcastStep, valueChecks, rangeFails, asNDArray]
    · intro i j hi hj
      interval_cases i <;> interval_cases j <;> rfl
  · intro arr h1 h2
    have hm : shapeSpecMatches (.many [.tup [3, 3], .tup [4, 4]]) arr.shape = false := by
      apply Bool.eq_false_iff.mpr
      intro hc
      simp only [shapeSpecMatches, List.any_eq_true, List.mem_cons, List.mem_singleton] at hc
      obtain ⟨sl, hsl, hmatch⟩ := hc
      rcases hsl with rfl | rfl | hsl
      · exact h1 (matchesDims33 arr.shape hmatch)
      · exact h2 (matchesDims44 arr.shape hmatch)
      · simp at hsl
    unfold validate_transform4x4 validate_array validate_array_core
    simp [dtypeFails, shapeFails, hm]

/-- Witness for C7 at a concrete 3x3 array and a concrete shape-(2,) array. -/
theorem C7_witness :
    validate_transform4x4 ⟨[3, 3], .int, [1, 2, 3, 4, 5, 6, 7, 8, 9]⟩ "Transform"
      = .ok (embed3in4 ⟨[3, 3], .int, [1, 2, 3, 4, 5, 6, 7, 8, 9]⟩)
    ∧ validate_transform4x4 ⟨[2], .int, [1, 2]⟩ "Transform"
      = .error (.typeErr transformTypeMsg) :=
  ⟨(C7_transform4x4_embed_or_type_error.1 _ rfl).1,
   C7_transform4x4_embed_or_type_error.2 _ (by decide) (by decide)⟩

/-!
C8: the wrappers reject overrides of their pinned constraints.  The claim
says this raises the type-mismatch error kind; the source
(`_set_default_kwarg_mandatory`, lines 1003-1013, including its own
docstring) raises a ValueError, so the claim is corrected to a value error.
The message does name the offending parameter and the wrapper.
-/

/-- Counterexample for C8: overriding the pinned `must_have_shape` of
`validate_number` raises a value error naming the parameter and the wrapper,
not a type-mismatch error as the claim states. -/
theorem C8_counterexample_value_not_type_error :
    validate_number ⟨[], .int, [1]⟩ true { must_have_shape := some (.one (.int 7)) }
      = .error (.valueErr (overrideMsg "must_have_shape" "validate_number"))
    ∧ isTypeErrB (validate_number ⟨[], .int, [1]⟩ true
        { must_have_shape := some (.one (.int 7)) }) = false := by
  constructor <;> rfl

/-- C8 amended: for each specialized wrapper, overriding one of its pinned
constraints to a non-default value raises a VALUE error whose message names
the offending parameter and the wrapper. -/
theorem C8_amended_override_raises_value_error :
    (∀ (arr : NArray) (s : ShapeSpec), s ≠ .many [.tup [], .tup [1]] →
        validate_number arr true { must_have_shape := some s }
          = .error (.valueErr (overrideMsg "must_have_shape" "validate_number")))
    ∧ (∀ (arr : NArray) (b : Bool), b ≠ true →
        validate_data_range arr { must_be_sorted := some b }
          = .error (.valueErr (overrideMsg "must_be_sorted" "validate_data_range")))
    ∧ (∀ (arr : NArray) (r : ReshapeArg), r ≠ .int (-1) →
        validate_arrayN arr true { reshape_to := some r }
          = .error (.valueErr (overrideMsg "reshape_to" "validate_arrayN")))
    ∧ (∀ (arr : NArray) (b : Bool), b ≠ true →
        validate_arrayN_uintlike arr true { must_be_integer_like := some b }
          = .error (.valueErr (overrideMsg "must_be_integer_like" "validate_arrayN_uintlike")))
    ∧ (∀ (arr : NArray) (r : ReshapeArg), r ≠ .tup [-1, 3] →
        validate_arrayNx3 arr true { reshape_to := some r }
          = .error (.valueErr (overrideMsg "reshape_to" "validate_arrayNx3")))
    ∧ (∀ (arr : NArray) (s : ShapeSpec), s ≠ .many [.tup [3], .tup [1, 3], .tup [3, 1]] →
        validate_array3 arr true false { must_have_shape := some s }
          = .error (.valueErr (overrideMsg "must_have_shape" "validate_array3"))) := by
  refine ⟨?_, ?_, ?_, ?_, ?_, ?_⟩
  · intro arr s h
    simp [validate_number, setDefaultMandatory, h]
  · intro arr b h
    simp [validate_data_range, setDefaultMandatory, h]
  · intro arr r h
    simp [validate_arrayN, setDefaultMandatory, h]
  · intro arr b h
    simp [validate_arrayN_uintlike, setDefaultMandatory, h]
  · intro arr r h
    simp [validate_arrayNx3, setDefaultMandatory, h]
  · intro arr s h
    simp [validate_array3, validate_array3_tail, setDefaultMandatory, h]

/-- Witness for C8 amended, one concrete override per wrapper. -/
theorem C8_amended_witness :
    validate_number ⟨[], .int, [1]⟩ true { must_have_shape := some (.one (.int 9)) }
      = .error (.valueErr (overrideMsg "must_have_shape" "validate_number"))
    ∧ validate_data_range ⟨[2], .int, [1, 2]⟩ { must_be_sorted := some false }
      = .error (.valueErr (overrideMsg "must_be_sorted" "validate_data_range"))
    ∧ validate_arrayN ⟨[2], .int, [1, 2]⟩ true { reshape_to := some (.tup [2]) }
      = .error (.valueErr (overrideMsg "reshape_to" "validate_arrayN"))
    ∧ validate_arrayN_uintlike ⟨[2], .int, [1, 2]⟩ true { must_be_integer_like := some false }
      = .error (.valueErr (overrideMsg "must_be_integer_like" "validate_arrayN_uintlike"))
    ∧ validate_arrayNx3 ⟨[3], .int, [1, 2, 3]⟩ true { reshape_to := some (.int (-1)) }
      = .error (.valueErr (overrideMsg "reshape_to" "validate_arrayNx3"))
    ∧ validate_array3 ⟨[3], .int, [1, 2, 3]⟩ true false { must_have_shape := some (.one (.tup [3])) }
      = .error (.valueErr (overrideMsg "must_have_shape" "validate_array3")) :=
  ⟨C8_amended_override_raises_value_error.1 _ _ (by decide),
   C8_amended_override_raises_value_error.2.1 _ _ (by decide),
   C8_amended_override_raises_value_error.2.2.1 _ _ (by decide),
   C8_amended_override_raises_value_error.2.2.2.1 _ _ (by decide),
   C8_amended_override_raises_value_error.2.2.2.2.1 _ _ (by decide),
   C8_amended_override_raises_value_error.2.2.2.2.2 _ _ (by decide)⟩

/-!
C9: idempotence with no transform flags.
-/

/-- C9: when no reshape, broadcast, dtype cast or container conversion is
requested and the validation succeeds (i.e. the input already satisfies
every requested constraint), `validate_array` returns exactly the input
array. -/
theorem C9_valid_input_returned_unchanged (arr : NArray) (k : Kwargs) (X : PyObj)
    (h1 : k.reshape_to = none) (h2 : k.broadcast_to = none) (h3 : k.dtype_out = none)
    (h4 : k.to_list.getD false = false) (h5 : k.to_tuple.getD false = false)
    (h : validate_array arr k = .ok X) : X = .array arr := by
  unfold validate_array at h
  cases hc : validate_array_core arr k with
  | error e => rw [hc] at h; simp at h
  | ok a =>
    rw [hc, h4, h5] at h
    simp at h
    have ha : a = arr := by
      unfold validate_array_core at hc
      rw [h1, h2, h3] at hc
      simp only [reshapeStep, broadcastStep] at hc
      split at hc
      · simp at hc
      · split at hc
        · simp at hc
        · split at hc
          · simp at hc
          · simp at hc; exact hc.symm
    rw [← h, ha]

/-- Witness for C9 at a concrete already-valid array with a nonnegativity
constraint and no transform flags. -/
theorem C9_witness :
    PyObj.array ⟨[2], .int, [1, 2]⟩ = PyObj.array ⟨[2], .int, [1, 2]⟩ :=
  C9_valid_input_returned_unchanged ⟨[2], .int, [1, 2]⟩ { must_be_nonnegative := some true }
    (.array ⟨[2], .int, [1, 2]⟩) rfl rfl rfl rfl rfl rfl

/-!
C10: `to_tuple` takes precedence over `to_list`.
-/

/-- C10: when both `to_tuple=True` and `to_list=True` are passed, the tuple
branch is evaluated first: the `to_list` value has no effect on the result,
and a successful validation returns the nested tuple (scalars unwrapped by
`cast_to_tuple_array`) of the processed array. -/
theorem C10_to_tuple_precedes_to_list (arr : NArray) (k : Kwargs) :
    (∀ b : Option Bool,
        validate_array arr { k with to_tuple := some true, to_list := b }
          = validate_array arr { k with to_tuple := some true })
    ∧ ∀ A, validate_array_core arr { k with to_tuple := some true, to_list := some true }
          = .ok A →
        validate_array arr { k with to_tuple := some true, to_list := some true }
          = .ok (cast_to_tuple_array A) := by
  constructor
  · intro b
    cases k
    rfl
  · intro A h
    unfold validate_array
    rw [h]
    simp

/-- Witness for C10 at a concrete array, evaluating both conjuncts. -/
theorem C10_witness :
    validate_array ⟨[2], .int, [1, 2]⟩ { to_tuple := some true, to_list := some false }
      = validate_array ⟨[2], .int, [1, 2]⟩ { to_tuple := some true }
    ∧ validate_array ⟨[2], .int, [1, 2]⟩ { to_tuple := some true, to_list := some true }
      = .ok (cast_to_tuple_array ⟨[2], .int, [1, 2]⟩) :=
  ⟨(C10_to_tuple_precedes_to_list ⟨[2], .int, [1, 2]⟩ {}).1 (some false),
   (C10_to_tuple_precedes_to_list ⟨[2], .int, [1, 2]⟩ {}).2 _ rfl⟩

/-!
Real-analysis helpers for the `validate_axes` claims.
-/

/-- Positivity of the numpy absolute tolerance. -/
theorem atol_pos : (0:ℝ) < atol := by rw [atol]; norm_num

theorem rtol_pos : (0:ℝ) < rtol := by rw [rtol]; norm_num

theorem tol_small : 3 * (atol + rtol) < 1 := by rw [atol, rtol]; norm_num

theorem allclose3_refl (v : Vec3) : allclose3 v v := by
  refine ⟨?_, ?_, ?_⟩ <;>
    · rw [isclose, sub_self, abs_zero]
      have := atol_pos
      have := rtol_pos
      positivity

theorem cross3_self (v : Vec3) : cross3 v v = zero3 := by
  simp only [cross3, zero3, Vec3.mk.injEq]
  refine ⟨by ring, by ring, by ring⟩

theorem dot3_cross_right (u v : Vec3) : dot3 (cross3 u v) v = 0 := by
  simp only [dot3, cross3]; ring

theorem dot3_zero_left (v : Vec3) : dot3 zero3 v = 0 := by
  simp only [dot3, zero3]; ring

theorem dot3_negV_right (u v : Vec3) : dot3 u (negV v) = -dot3 u v := by
  simp only [dot3, negV]; ring

theorem dot3_negV_self (v : Vec3) : dot3 (negV v) (negV v) = dot3 v v := by
  simp only [dot3, negV]; ring

theorem allcloseZero_zero3 : allcloseZero zero3 := by
  refine ⟨?_, ?_, ?_⟩ <;> · show |(0:ℝ)| ≤ atol; rw [abs_zero]; exact atol_pos.le

theorem vOf_zero : vOf (0, 0, 0) = zero3 := by
  simp [vOf, zero3]

theorem allclose_dot_bound (c m : Vec3) (hm : dot3 m m = 1) (h : allclose3 c m) :
    |dot3 c m - 1| ≤ 3 * (atol + rtol) := by
  obtain ⟨h1, h2, h3⟩ := h
  rw [isclose] at h1 h2 h3
  have hm' : m.x * m.x + m.y * m.y + m.z * m.z = 1 := hm
  have hmx : |m.x| ≤ 1 := by
    rw [abs_le]
    constructor <;>
      nlinarith [sq_nonneg m.y, sq_nonneg m.z, sq_nonneg (m.x + 1), sq_nonneg (m.x - 1)]
  have hmy : |m.y| ≤ 1 := by
    rw [abs_le]
    constructor <;>
      nlinarith [sq_nonneg m.x, sq_nonneg m.z, sq_nonneg (m.y + 1), sq_nonneg (m.y - 1)]
  have hmz : |m.z| ≤ 1 := by
    rw [abs_le]
    constructor <;>
      nlinarith [sq_nonneg m.x, sq_nonneg m.y, sq_nonneg (m.z + 1), sq_nonneg (m.z - 1)]
  have hbx : |c.x - m.x| ≤ atol + rtol := by nlinarith [rtol_pos]
  have hby : |c.y - m.y| ≤ atol + rtol := by nlinarith [rtol_pos]
  have hbz : |c.z - m.z| ≤ atol + rtol := by nlinarith [rtol_pos]
  have h0 : (0:ℝ) ≤ atol + rtol := by linarith [atol_pos, rtol_pos]
  have he : dot3 c m - 1
      = (c.x - m.x) * m.x + (c.y - m.y) * m.y + (c.z - m.z) * m.z := by
    simp only [dot3]
    linear_combination hm'
  have t1 : |(c.x - m.x) * m.x| ≤ (atol + rtol) * 1 := by
    rw [abs_mul]
    exact mul_le_mul hbx hmx (abs_nonneg _) h0
  have t2 : |(c.y - m.y) * m.y| ≤ (atol + rtol) * 1 := by
    rw [abs_mul]
    exact mul_le_mul hby hmy (abs_nonneg _) h0
  have t3 : |(c.z - m.z) * m.z| ≤ (atol + rtol) * 1 := by
    rw [abs_mul]
    exact mul_le_mul hbz hmz (abs_nonneg _) h0
  rw [he]
  calc |(c.x - m.x) * m.x + (c.y - m.y) * m.y + (c.z - m.z) * m.z|
      ≤ |(c.x - m.x) * m.x + (c.y - m.y) * m.y| + |(c.z - m.z) * m.z| := abs_add _ _
    _ ≤ |(c.x - m.x) * m.x| + |(c.y - m.y) * m.y| + |(c.z - m.z) * m.z| := by
        linarith [abs_add ((c.x - m.x) * m.x) ((c.y - m.y) * m.y)]
    _ ≤ 3 * (atol + rtol) := by linarith

theorem unit_not_allclose (c m : Vec3) (hm : dot3 m m = 1) (hp : dot3 c m = 0) :
    ¬ allclose3 c m := by
  intro h
  have hb := allclose_dot_bound c m hm h
  rw [hp] at hb
  have habs : |(0:ℝ) - 1| = 1 := by norm_num
  rw [habs] at hb
  linarith [tol_small]

theorem unit_not_allclose_neg (c m : Vec3) (hm : dot3 m m = 1) (hp : dot3 c m = 0) :
    ¬ allclose3 c (negV m) := by
  intro h
  have hm2 : dot3 (negV m) (negV m) = 1 := by rw [dot3_negV_self]; exact hm
  have hp2 : dot3 c (negV m) = 0 := by rw [dot3_negV_right, hp]; ring
  exact unit_not_allclose c (negV m) hm2 hp2 h

theorem normRow_self_dot (v : Vec3) (h : ¬ allcloseZero v) :
    dot3 (normRow v) (normRow v) = 1 := by
  have hs : 0 < dot3 v v := by
    by_contra hq
    push_neg at hq
    apply h
    have hd : v.x * v.x + v.y * v.y + v.z * v.z ≤ 0 := hq
    have hx : v.x = 0 := by
      have := le_antisymm (by nlinarith [sq_nonneg v.y, sq_nonneg v.z]) (mul_self_nonneg v.x)
      exact mul_self_eq_zero.mp this
    have hy : v.y = 0 := by
      have := le_antisymm (by nlinarith [sq_nonneg v.x, sq_nonneg v.z]) (mul_self_nonneg v.y)
      exact mul_self_eq_zero.mp this
    have hz : v.z = 0 := by
      have := le_antisymm (by nlinarith [sq_nonneg v.x, sq_nonneg v.y]) (mul_self_nonneg v.z)
      exact mul_self_eq_zero.mp this
    refine ⟨?_, ?_, ?_⟩ <;> simp [hx, hy, hz, atol_pos.le]
  have hmul : norm3 v * norm3 v = dot3 v v := Real.mul_self_sqrt hs.le
  have hnz : norm3 v ≠ 0 := by
    intro h0
    rw [h0, mul_zero] at hmul
    exact absurd hmul.symm (ne_of_gt hs)
  have hd' : v.x * v.x + v.y * v.y + v.z * v.z = norm3 v * norm3 v := hmul.symm
  simp only [normRow, dot3]
  field_simp
  linear_combination hd'

theorem normRow_eq_div (v : Vec3) (c : ℝ) (h0 : 0 < c) (h : dot3 v v = c * c) :
    normRow v = ⟨v.x / c, v.y / c, v.z / c⟩ := by
  rw [normRow, norm3, h, Real.sqrt_mul_self h0.le]

theorem axesChecks_ok_of (M : Mat3) (nm orth : Bool) (orient : Option String) (name : String)
    (h1 : ¬ parallelCond M) (h2 : ¬ zeroCond M)
    (h3 : ¬ (orth = true ∧ ¬ orthoCond (normMat M)))
    (h4 : ¬ orientFails orient (normMat M)) :
    axesChecks M nm orth orient name = .ok (if nm then normMat M else M) := by
  unfold axesChecks
  rw [if_neg h1, if_neg h2, if_neg h3, if_neg h4]

theorem axesChecks_cases (M : Mat3) (nm orth : Bool) (orient : Option String) (name : String) :
    (∃ m, axesChecks M nm orth orient name = .error (.valueErr m)) ∨
    (¬ parallelCond M ∧ ¬ zeroCond M ∧ ¬ (orth = true ∧ ¬ orthoCond (normMat M))
      ∧ ¬ orientFails orient (normMat M)) := by
  by_cases h1 : parallelCond M
  · exact Or.inl ⟨_, by unfold axesChecks; rw [if_pos h1]⟩
  by_cases h2 : zeroCond M
  · exact Or.inl ⟨_, by unfold axesChecks; rw [if_neg h1, if_pos h2]⟩
  by_cases h3 : orth = true ∧ ¬ orthoCond (normMat M)
  · exact Or.inl ⟨_, by unfold axesChecks; rw [if_neg h1, if_neg h2, if_pos h3]⟩
  by_cases h4 : orientFails orient (normMat M)
  · exact Or.inl ⟨_, by unfold axesChecks; rw [if_neg h1, if_neg h2, if_neg h3, if_pos h4]⟩
  · exact Or.inr ⟨h1, h2, h3, h4⟩

theorem axesChecks_ok_inv (M X : Mat3) (nm orth : Bool) (orient : Option String)
    (name : String) (h : axesChecks M nm orth orient name = .ok X) :
    X = (if nm then normMat M else M) := by
  unfold axesChecks at h
  split_ifs at h <;> simp_all

theorem validate_axes_three_eval (t0 t1 t2 : ℚ × ℚ × ℚ) (nm orth : Bool) (s : String)
    (hs : s = "right" ∨ s = "left") (name : String) :
    validate_axes [arrOf t0, arrOf t1, arrOf t2] nm orth (some s) name
      = axesChecks ⟨vOf t0, vOf t1, vOf t2⟩ nm orth (some s) name := by
  rcases hs with rfl | rfl <;> rfl

theorem validate_axes_two_eval (t0 t1 : ℚ × ℚ × ℚ) (nm orth : Bool) (name : String) :
    (validate_axes [arrOf t0, arrOf t1] nm orth (some "right") name
      = axesChecks ⟨vOf t0, vOf t1, cross3 (vOf t0) (vOf t1)⟩ nm orth (some "right") name)
    ∧ (validate_axes [arrOf t0, arrOf t1] nm orth (some "left") name
      = axesChecks ⟨vOf t0, vOf t1, cross3 (vOf t1) (vOf t0)⟩ nm orth (some "left") name) := by
  constructor <;> rfl

/-!
C6: degenerate axes raise a value error.
-/

/-- C6: with default options, `validate_axes` raises a value error whenever
two of the supplied axis vectors are identical (their cross product is the
zero vector) or any supplied axis is the zero vector, both for three
supplied vectors and for two. -/
theorem C6_degenerate_axes_value_error :
    (∀ t0 t1 t2 : ℚ × ℚ × ℚ,
        t0 = t1 ∨ t0 = t2 ∨ t1 = t2 ∨ t0 = (0, 0, 0) ∨ t1 = (0, 0, 0) ∨ t2 = (0, 0, 0) →
        ∃ m, validate_axes [arrOf t0, arrOf t1, arrOf t2] true true (some "right") "Axes"
          = .error (.valueErr m))
    ∧ (∀ t0 t1 : ℚ × ℚ × ℚ,
        t0 = t1 ∨ t0 = (0, 0, 0) ∨ t1 = (0, 0, 0) →
        ∃ m, validate_axes [arrOf t0, arrOf t1] true true (some "right") "Axes"
          = .error (.valueErr m)) := by
  constructor
  · intro t0 t1 t2 hdeg
    rw [validate_axes_three_eval t0 t1 t2 true true "right" (Or.inl rfl) "Axes"]
    rcases axesChecks_cases ⟨vOf t0, vOf t1, vOf t2⟩ true true (some "right") "Axes" with
      h | ⟨hpar, hzero, horth, hor⟩
    · exact h
    exfalso
    have hnz0 : ¬ allcloseZero (vOf t0) := fun hh => hzero (Or.inl hh)
    have hnz1 : ¬ allcloseZero (vOf t1) := fun hh => hzero (Or.inr (Or.inl hh))
    have hnz2 : ¬ allcloseZero (vOf t2) := fun hh => hzero (Or.inr (Or.inr hh))
    have ho : orthoCond (normMat ⟨vOf t0, vOf t1, vOf t2⟩) := by
      by_contra hq
      exact horth ⟨rfl, hq⟩
    rcases hdeg with hv | hv | hv | h0 | h0 | h0
    · -- rows 0 and 1 identical: their normalized cross product is zero,
      -- never allclose to the unit third row
      have hveq : vOf t0 = vOf t1 := by rw [hv]
      have hu : dot3 (normRow (vOf t2)) (normRow (vOf t2)) = 1 := normRow_self_dot _ hnz2
      have hcz : cross3 (normRow (vOf t0)) (normRow (vOf t1)) = zero3 := by
        rw [hveq]; exact cross3_self _
      rcases ho.1 with hcl | hcl
      · have hcl2 : allclose3 (cross3 (normRow (vOf t0)) (normRow (vOf t1)))
            (normRow (vOf t2)) := hcl
        rw [hcz] at hcl2
        exact unit_not_allclose _ _ hu (dot3_zero_left _) hcl2
      · have hcl2 : allclose3 (cross3 (normRow (vOf t0)) (normRow (vOf t1)))
            (negV (normRow (vOf t2))) := hcl
        rw [hcz] at hcl2
        exact unit_not_allclose_neg _ _ hu (dot3_zero_left _) hcl2
    · -- rows 0 and 2 identical: the cross of rows 1 and 2 is orthogonal to
      -- row 2 = row 0, never allclose to the unit row 0
      have hveq : vOf t0 = vOf t2 := by rw [hv]
      have hu : dot3 (normRow (vOf t0)) (normRow (vOf t0)) = 1 := normRow_self_dot _ hnz0
      rcases ho.2 with hcl | hcl
      · have hcl2 : allclose3 (cross3 (normRow (vOf t1)) (normRow (vOf t2)))
            (normRow (vOf t0)) := hcl
        rw [← hveq] at hcl2
        exact unit_not_allclose _ _ hu (dot3_cross_right _ _) hcl2
      · have hcl2 : allclose3 (cross3 (normRow (vOf t1)) (normRow (vOf t2)))
            (negV (normRow (vOf t0))) := hcl
        rw [← hveq] at hcl2
        exact unit_not_allclose_neg _ _ hu (dot3_cross_right _ _) hcl2
    · -- rows 1 and 2 identical: their normalized cross product is zero,
      -- never allclose to the unit row 0
      have hveq : vOf t1 = vOf t2 := by rw [hv]
      have hu : dot3 (normRow (vOf t0)) (normRow (vOf t0)) = 1 := normRow_self_dot _ hnz0
      have hcz : cross3 (normRow (vOf t1)) (normRow (vOf t2)) = zero3 := by
        rw [hveq]; exact cross3_self _
      rcases ho.2 with hcl | hcl
      · have hcl2 : allclose3 (cross3 (normRow (vOf t1)) (normRow (vOf t2)))
            (normRow (vOf t0)) := hcl
        rw [hcz] at hcl2
        exact unit_not_allclose _ _ hu (dot3_zero_left _) hcl2
      · have hcl2 : allclose3 (cross3 (normRow (vOf t1)) (normRow (vOf t2)))
            (negV (normRow (vOf t0))) := hcl
        rw [hcz] at hcl2
        exact unit_not_allclose_neg _ _ hu (dot3_zero_left _) hcl2
    · exact hnz0 (by rw [h0, vOf_zero]; exact allcloseZero_zero3)
    · exact hnz1 (by rw [h0, vOf_zero]; exact allcloseZero_zero3)
    · exact hnz2 (by rw [h0, vOf_zero]; exact allcloseZero_zero3)
  · intro t0 t1 hdeg
    rw [(validate_axes_two_eval t0 t1 true true "Axes").1]
    rcases axesChecks_cases ⟨vOf t0, vOf t1, cross3 (vOf t0) (vOf t1)⟩ true true
        (some "right") "Axes" with h | ⟨hpar, hzero, horth, hor⟩
    · exact h
    exfalso
    rcases hdeg with hv | h0 | h0
    · -- identical inputs: the assembled third row is their zero cross product
      apply hzero
      refine Or.inr (Or.inr ?_)
      show allcloseZero (cross3 (vOf t0) (vOf t1))
      have hveq : vOf t0 = vOf t1 := by rw [hv]
      rw [hveq, cross3_self]
      exact allcloseZero_zero3
    · exact hzero (Or.inl (by show allcloseZero (vOf t0); rw [h0, vOf_zero]; exact allcloseZero_zero3))
    · exact hzero (Or.inr (Or.inl (by show allcloseZero (vOf t1); rw [h0, vOf_zero]; exact allcloseZero_zero3)))

/-- Witness for C6: an identical pair among three supplied axes, and an
identical (non-unit) pair of two supplied axes. -/
theorem C6_witness :
    (∃ m, validate_axes [arrOf (1, 0, 0), arrOf (1, 0, 0), arrOf (0, 0, 1)] true true
        (some "right") "Axes" = .error (.valueErr m))
    ∧ (∃ m, validate_axes [arrOf (2, 0, 0), arrOf (2, 0, 0)] true true
        (some "right") "Axes" = .error (.valueErr m)) :=
  ⟨C6_degenerate_axes_value_error.1 _ _ _ (Or.inl rfl),
   C6_degenerate_axes_value_error.2 _ _ (Or.inl rfl)⟩

theorem not_isclose_zero_one : ¬ isclose 0 1 := by
  rw [isclose, atol, rtol]
  norm_num

theorem no_parallel_of_perp (M : Mat3) (h1 : dot3 M.r0 M.r1 = 0) (h2 : dot3 M.r0 M.r2 = 0) :
    ¬ parallelCond M := by
  rintro (h | h)
  · rw [h1] at h; exact not_isclose_zero_one h
  · rw [h2] at h; exact not_isclose_zero_one h

theorem notZero_row (v : Vec3) (h : atol < |v.x| ∨ atol < |v.y| ∨ atol < |v.z|) :
    ¬ allcloseZero v := by
  rintro ⟨hx, hy, hz⟩
  rcases h with h | h | h <;> linarith

theorem not_zeroCond_of (M : Mat3) (h0 : ¬ allcloseZero M.r0) (h1 : ¬ allcloseZero M.r1)
    (h2 : ¬ allcloseZero M.r2) : ¬ zeroCond M := by
  rintro (h | h | h)
  · exact h0 h
  · exact h1 h
  · exact h2 h

theorem orthoCond_id : orthoCond ⟨⟨1, 0, 0⟩, ⟨0, 1, 0⟩, ⟨0, 0, 1⟩⟩ := by
  have h1 : cross3 (⟨1, 0, 0⟩ : Vec3) ⟨0, 1, 0⟩ = ⟨0, 0, 1⟩ := by norm_num [cross3]
  have h2 : cross3 (⟨0, 1, 0⟩ : Vec3) ⟨0, 0, 1⟩ = ⟨1, 0, 0⟩ := by norm_num [cross3]
  refine ⟨Or.inl ?_, Or.inl ?_⟩
  · show allclose3 (cross3 ⟨1, 0, 0⟩ ⟨0, 1, 0⟩) ⟨0, 0, 1⟩
    rw [h1]; exact allclose3_refl _
  · show allclose3 (cross3 ⟨0, 1, 0⟩ ⟨0, 0, 1⟩) ⟨1, 0, 0⟩
    rw [h2]; exact allclose3_refl _

theorem orthoCond_left : orthoCond ⟨⟨1, 0, 0⟩, ⟨0, 1, 0⟩, ⟨0, 0, -1⟩⟩ := by
  have h1 : cross3 (⟨1, 0, 0⟩ : Vec3) ⟨0, 1, 0⟩ = ⟨0, 0, 1⟩ := by norm_num [cross3]
  have h1n : negV ⟨0, 0, -1⟩ = (⟨0, 0, 1⟩ : Vec3) := by norm_num [negV]
  have h2 : cross3 (⟨0, 1, 0⟩ : Vec3) ⟨0, 0, -1⟩ = ⟨-1, 0, 0⟩ := by norm_num [cross3]
  have h2n : negV ⟨1, 0, 0⟩ = (⟨-1, 0, 0⟩ : Vec3) := by norm_num [negV]
  refine ⟨Or.inr ?_, Or.inr ?_⟩
  · show allclose3 (cross3 ⟨1, 0, 0⟩ ⟨0, 1, 0⟩) (negV ⟨0, 0, -1⟩)
    rw [h1, h1n]; exact allclose3_refl _
  · show allclose3 (cross3 ⟨0, 1, 0⟩ ⟨0, 0, -1⟩) (negV ⟨1, 0, 0⟩)
    rw [h2, h2n]; exact allclose3_refl _

theorem orientOk_id : ¬ orientFails (some "right") ⟨⟨1, 0, 0⟩, ⟨0, 1, 0⟩, ⟨0, 0, 1⟩⟩ := by
  rintro (⟨-, h⟩ | ⟨h, -⟩)
  · norm_num [cross3, dot3] at h
  · simp at h

theorem orientOk_left : ¬ orientFails (some "left") ⟨⟨1, 0, 0⟩, ⟨0, 1, 0⟩, ⟨0, 0, -1⟩⟩ := by
  rintro (⟨h, -⟩ | ⟨-, h⟩)
  · simp at h
  · norm_num [cross3, dot3] at h

theorem normMat_id : normMat ⟨⟨1, 0, 0⟩, ⟨0, 1, 0⟩, ⟨0, 0, 1⟩⟩
    = ⟨⟨1, 0, 0⟩, ⟨0, 1, 0⟩, ⟨0, 0, 1⟩⟩ := by
  have h0 : normRow (⟨1, 0, 0⟩ : Vec3) = ⟨1, 0, 0⟩ := by
    rw [normRow_eq_div _ 1 one_pos (by norm_num [dot3])]
    norm_num
  have h1 : normRow (⟨0, 1, 0⟩ : Vec3) = ⟨0, 1, 0⟩ := by
    rw [normRow_eq_div _ 1 one_pos (by norm_num [dot3])]
    norm_num
  have h2 : normRow (⟨0, 0, 1⟩ : Vec3) = ⟨0, 0, 1⟩ := by
    rw [normRow_eq_div _ 1 one_pos (by norm_num [dot3])]
    norm_num
  simp only [normMat]
  rw [h0, h1, h2]

theorem normMat_left : normMat ⟨⟨1, 0, 0⟩, ⟨0, 1, 0⟩, ⟨0, 0, -1⟩⟩
    = ⟨⟨1, 0, 0⟩, ⟨0, 1, 0⟩, ⟨0, 0, -1⟩⟩ := by
  have h0 : normRow (⟨1, 0, 0⟩ : Vec3) = ⟨1, 0, 0⟩ := by
    rw [normRow_eq_div _ 1 one_pos (by norm_num [dot3])]
    norm_num
  have h1 : normRow (⟨0, 1, 0⟩ : Vec3) = ⟨0, 1, 0⟩ := by
    rw [normRow_eq_div _ 1 one_pos (by norm_num [dot3])]
    norm_num
  have h2 : normRow (⟨0, 0, -1⟩ : Vec3) = ⟨0, 0, -1⟩ := by
    rw [normRow_eq_div _ 1 one_pos (by norm_num [dot3])]
    norm_num
  simp only [normMat]
  rw [h0, h1, h2]

theorem normMat_cex : normMat ⟨⟨1, 0, 0⟩, ⟨0, 2, 0⟩, ⟨0, 0, 2⟩⟩
    = ⟨⟨1, 0, 0⟩, ⟨0, 1, 0⟩, ⟨0, 0, 1⟩⟩ := by
  have h0 : normRow (⟨1, 0, 0⟩ : Vec3) = ⟨1, 0, 0⟩ := by
    rw [normRow_eq_div _ 1 one_pos (by norm_num [dot3])]
    norm_num
  have h1 : normRow (⟨0, 2, 0⟩ : Vec3) = ⟨0, 1, 0⟩ := by
    rw [normRow_eq_div _ 2 two_pos (by norm_num [dot3])]
    norm_num
  have h2 : normRow (⟨0, 0, 2⟩ : Vec3) = ⟨0, 0, 1⟩ := by
    rw [normRow_eq_div _ 2 two_pos (by norm_num [dot3])]
    norm_num
  simp only [normMat]
  rw [h0, h1, h2]

theorem axesChecks_id_eval (nm : Bool) :
    axesChecks ⟨⟨1, 0, 0⟩, ⟨0, 1, 0⟩, ⟨0, 0, 1⟩⟩ nm true (some "right") "Axes"
      = .ok ⟨⟨1, 0, 0⟩, ⟨0, 1, 0⟩, ⟨0, 0, 1⟩⟩ := by
  have hpar : ¬ parallelCond ⟨⟨1, 0, 0⟩, ⟨0, 1, 0⟩, ⟨0, 0, 1⟩⟩ :=
    no_parallel_of_perp _ (by norm_num [dot3]) (by norm_num [dot3])
  have hzero : ¬ zeroCond ⟨⟨1, 0, 0⟩, ⟨0, 1, 0⟩, ⟨0, 0, 1⟩⟩ :=
    not_zeroCond_of _
      (notZero_row _ (Or.inl (by norm_num [atol])))
      (notZero_row _ (Or.inr (Or.inl (by norm_num [atol]))))
      (notZero_row _ (Or.inr (Or.inr (by norm_num [atol]))))
  have horth : ¬ (true = true
      ∧ ¬ orthoCond (normMat ⟨⟨1, 0, 0⟩, ⟨0, 1, 0⟩, ⟨0, 0, 1⟩⟩)) := by
    rintro ⟨-, hq⟩
    rw [normMat_id] at hq
    exact hq orthoCond_id
  have hor : ¬ orientFails (some "right") (normMat ⟨⟨1, 0, 0⟩, ⟨0, 1, 0⟩, ⟨0, 0, 1⟩⟩) := by
    intro hof
    rw [normMat_id] at hof
    exact orientOk_id hof
  rw [axesChecks_ok_of _ nm true (some "right") "Axes" hpar hzero horth hor, normMat_id,
      ite_self]

theorem axesChecks_left_eval (nm : Bool) :
    axesChecks ⟨⟨1, 0, 0⟩, ⟨0, 1, 0⟩, ⟨0, 0, -1⟩⟩ nm true (some "left") "Axes"
      = .ok ⟨⟨1, 0, 0⟩, ⟨0, 1, 0⟩, ⟨0, 0, -1⟩⟩ := by
  have hpar : ¬ parallelCond ⟨⟨1, 0, 0⟩, ⟨0, 1, 0⟩, ⟨0, 0, -1⟩⟩ :=
    no_parallel_of_perp _ (by norm_num [dot3]) (by norm_num [dot3])
  have hzero : ¬ zeroCond ⟨⟨1, 0, 0⟩, ⟨0, 1, 0⟩, ⟨0, 0, -1⟩⟩ :=
    not_zeroCond_of _
      (notZero_row _ (Or.inl (by norm_num [atol])))
      (notZero_row _ (Or.inr (Or.inl (by norm_num [atol]))))
      (notZero_row _ (Or.inr (Or.inr (by norm_num [atol]))))
  have horth : ¬ (true = true
      ∧ ¬ orthoCond (normMat ⟨⟨1, 0, 0⟩, ⟨0, 1, 0⟩, ⟨0, 0, -1⟩⟩)) := by
    rintro ⟨-, hq⟩
    rw [normMat_left] at hq
    exact hq orthoCond_left
  have hor : ¬ orientFails (some "left")
      (normMat ⟨⟨1, 0, 0⟩, ⟨0, 1, 0⟩, ⟨0, 0, -1⟩⟩) := by
    intro hof
    rw [normMat_left] at hof
    exact orientOk_left hof
  rw [axesChecks_ok_of _ nm true (some "left") "Axes" hpar hzero horth hor, normMat_left,
      ite_self]

theorem axesChecks_cex_eval :
    axesChecks ⟨⟨1, 0, 0⟩, ⟨0, 2, 0⟩, ⟨0, 0, 2⟩⟩ true true (some "right") "Axes"
      = .ok ⟨⟨1, 0, 0⟩, ⟨0, 1, 0⟩, ⟨0, 0, 1⟩⟩ := by
  have hpar : ¬ parallelCond ⟨⟨1, 0, 0⟩, ⟨0, 2, 0⟩, ⟨0, 0, 2⟩⟩ :=
    no_parallel_of_perp _ (by norm_num [dot3]) (by norm_num [dot3])
  have hzero : ¬ zeroCond ⟨⟨1, 0, 0⟩, ⟨0, 2, 0⟩, ⟨0, 0, 2⟩⟩ :=
    not_zeroCond_of _
      (notZero_row _ (Or.inl (by norm_num [atol])))
      (notZero_row _ (Or.inr (Or.inl (by norm_num [atol]))))
      (notZero_row _ (Or.inr (Or.inr (by norm_num [atol]))))
  have horth : ¬ (true = true
      ∧ ¬ orthoCond (normMat ⟨⟨1, 0, 0⟩, ⟨0, 2, 0⟩, ⟨0, 0, 2⟩⟩)) := by
    rintro ⟨-, hq⟩
    rw [normMat_cex] at hq
    exact hq orthoCond_id
  have hor : ¬ orientFails (some "right")
      (normMat ⟨⟨1, 0, 0⟩, ⟨0, 2, 0⟩, ⟨0, 0, 2⟩⟩) := by
    intro hof
    rw [normMat_cex] at hof
    exact orientOk_id hof
  rw [axesChecks_ok_of _ true true (some "right") "Axes" hpar hzero horth hor, normMat_cex,
      if_pos rfl]

theorem cast_mat_basis3 :
    (⟨vOf (1, 0, 0), vOf (0, 1, 0), vOf (0, 0, 1)⟩ : Mat3)
      = ⟨⟨1, 0, 0⟩, ⟨0, 1, 0⟩, ⟨0, 0, 1⟩⟩ := by
  norm_num [vOf, Mat3.mk.injEq, Vec3.mk.injEq]

theorem cast_mat_basis2_right :
    (⟨vOf (1, 0, 0), vOf (0, 1, 0), cross3 (vOf (1, 0, 0)) (vOf (0, 1, 0))⟩ : Mat3)
      = ⟨⟨1, 0, 0⟩, ⟨0, 1, 0⟩, ⟨0, 0, 1⟩⟩ := by
  norm_num [vOf, cross3, Mat3.mk.injEq, Vec3.mk.injEq]

theorem cast_mat_basis2_left :
    (⟨vOf (1, 0, 0), vOf (0, 1, 0), cross3 (vOf (0, 1, 0)) (vOf (1, 0, 0))⟩ : Mat3)
      = ⟨⟨1, 0, 0⟩, ⟨0, 1, 0⟩, ⟨0, 0, -1⟩⟩ := by
  norm_num [vOf, cross3, Mat3.mk.injEq, Vec3.mk.injEq]

theorem cast_mat_cex :
    (⟨vOf (1, 0, 0), vOf (0, 2, 0), cross3 (vOf (1, 0, 0)) (vOf (0, 2, 0))⟩ : Mat3)
      = ⟨⟨1, 0, 0⟩, ⟨0, 2, 0⟩, ⟨0, 0, 2⟩⟩ := by
  norm_num [vOf, cross3, Mat3.mk.injEq, Vec3.mk.injEq]

/-!
C5: the third axis built from two vectors.  The claim says the RETURNED
frame third axis is the cross product of the two supplied vectors; with the
default `normalize=True` the returned third axis is the unit-normalized
cross product, which differs whenever the cross product is not unit length.
-/

/-- Counterexample for C5: for the supplied vectors `(1,0,0)` and `(0,2,0)`
the call succeeds with default options and returns third axis `(0,0,1)`,
which is not the cross product `(0,0,2)` of the two supplied vectors. -/
theorem C5_counterexample_normalized_third_axis :
    validate_axes [arrOf (1, 0, 0), arrOf (0, 2, 0)] true true (some "right") "Axes"
      = .ok ⟨⟨1, 0, 0⟩, ⟨0, 1, 0⟩, ⟨0, 0, 1⟩⟩
    ∧ cross3 (vOf (1, 0, 0)) (vOf (0, 2, 0)) = ⟨0, 0, 2⟩
    ∧ (⟨0, 0, 1⟩ : Vec3) ≠ ⟨0, 0, 2⟩ := by
  refine ⟨?_, ?_, ?_⟩
  · rw [(validate_axes_two_eval (1, 0, 0) (0, 2, 0) true true "Axes").1, cast_mat_cex,
        axesChecks_cex_eval]
  · norm_num [vOf, cross3, Vec3.mk.injEq]
  · intro h
    have hz := congrArg Vec3.z h
    norm_num at hz

/-- C5 amended: the ASSEMBLED third axis is the cross product of the two
supplied vectors in the order fixed by the requested handedness (right:
first cross second; left: second cross first) — returned exactly when
normalization is disabled; with default normalization the returned frame is
the row-normalized one, and the two standard-basis examples hold as the
claim states them. -/
theorem C5_amended_cross_product_direction :
    (∀ (t0 t1 : ℚ × ℚ × ℚ) (X : Mat3),
        validate_axes [arrOf t0, arrOf t1] false true (some "right") "Axes" = .ok X →
        X.r2 = cross3 (vOf t0) (vOf t1))
    ∧ (∀ (t0 t1 : ℚ × ℚ × ℚ) (X : Mat3),
        validate_axes [arrOf t0, arrOf t1] false true (some "left") "Axes" = .ok X →
        X.r2 = cross3 (vOf t1) (vOf t0))
    ∧ validate_axes [arrOf (1, 0, 0), arrOf (0, 1, 0), arrOf (0, 0, 1)] true true
        (some "right") "Axes" = .ok ⟨⟨1, 0, 0⟩, ⟨0, 1, 0⟩, ⟨0, 0, 1⟩⟩
    ∧ validate_axes [arrOf (1, 0, 0), arrOf (0, 1, 0)] true true (some "left") "Axes"
        = .ok ⟨⟨1, 0, 0⟩, ⟨0, 1, 0⟩, ⟨0, 0, -1⟩⟩ := by
  refine ⟨?_, ?_, ?_, ?_⟩
  · intro t0 t1 X h
    rw [(validate_axes_two_eval t0 t1 false true "Axes").1] at h
    have hX := axesChecks_ok_inv _ X false true (some "right") "Axes" h
    simp only [Bool.false_eq_true, if_false] at hX
    rw [hX]
  · intro t0 t1 X h
    rw [(validate_axes_two_eval t0 t1 false true "Axes").2] at h
    have hX := axesChecks_ok_inv _ X false true (some "left") "Axes" h
    simp only [Bool.false_eq_true, if_false] at hX
    rw [hX]
  · rw [validate_axes_three_eval (1, 0, 0) (0, 1, 0) (0, 0, 1) true true "right"
        (Or.inl rfl) "Axes", cast_mat_basis3, axesChecks_id_eval]
  · rw [(validate_axes_two_eval (1, 0, 0) (0, 1, 0) true true "Axes").2,
        cast_mat_basis2_left, axesChecks_left_eval]

/-- Witness for C5 amended: at the standard basis pair with normalization
disabled, the returned third axis is exactly the cross product. -/
theorem C5_amended_witness :
    (Mat3.mk ⟨1, 0, 0⟩ ⟨0, 1, 0⟩ ⟨0, 0, 1⟩).r2 = cross3 (vOf (1, 0, 0)) (vOf (0, 1, 0)) :=
  C5_amended_cross_product_direction.1 (1, 0, 0) (0, 1, 0) ⟨⟨1, 0, 0⟩, ⟨0, 1, 0⟩, ⟨0, 0, 1⟩⟩
    (by rw [(validate_axes_two_eval (1, 0, 0) (0, 1, 0) false true "Axes").1,
          cast_mat_basis2_right, axesChecks_id_eval])
